import Mathlib

/-!
Shallow embedding of `src/python/sqlite/list_compile_options.py`.

The script opens an in-memory SQLite connection, runs
`PRAGMA compile_options;`, prints the first field of every returned row,
and closes the connection.  The database engine is an external
collaborator: its behaviour for one invocation (whether the connection
succeeds, whether the query succeeds, and which rows it returns) is the
input of the embedded program.  Output, exit status, diagnostics on the
error stream and the number of executed `conn.close()` calls are the
observable result.
-/

namespace ListCompileOptions

/-- A result row returned by the engine: an ordered sequence of text
fields (SQLite rows are tuples; `PRAGMA compile_options` yields one text
column, but the row shape is dynamic in the source, so a row is a list). -/
abbrev Row := List String

/-- Outcome of executing the introspection query on an open connection:
either the engine returns a row sequence, or `cursor.execute` raises a
QueryError-class condition (e.g. `sqlite3.OperationalError`). -/
inductive QueryOutcome where
  | ok (rows : List Row)
  | queryError
  deriving DecidableEq

/-- Behaviour of the external database engine for one invocation:
`sqlite3.connect(":memory:")` (line 10) either raises a
ConnectionError-class condition or yields a connection on which the query
has outcome `q`. -/
inductive EngineBehavior where
  | connectFail
  | connectOk (q : QueryOutcome)
  deriving DecidableEq

/-- `get_compile_options(cursor)` (lines 4-6): executes
`PRAGMA compile_options;` and returns `cursor.fetchall()`, i.e. the full
row list, eagerly.  `none` models `execute` raising; then `fetchall` is
never reached and no rows are produced. -/
def get_compile_options (q : QueryOutcome) : Option (List Row) :=
  match q with
  | .ok rows => some rows
  | .queryError => none

/-- The print loop of `main` (lines 17-18): for each row, prints
`f"{option[0]}"`.  Indexing an empty row raises `IndexError`, which stops
the loop; rows after the failing one are not printed.  Returns the lines
written to standard output and whether the loop completed without
raising. -/
def printLoop : List Row → List String × Bool
  | [] => ([], true)
  | [] :: _ => ([], false)
  | (f :: _) :: rest =>
    let r := printLoop rest
    (f :: r.1, r.2)

/-- Observable result of one process invocation: lines written to
standard output, the process exit status, how many times `conn.close()`
was executed, and whether a diagnostic (Python traceback of an unhandled
exception) was written to the error stream. -/
structure RunResult where
  stdout : List String
  exitCode : Nat
  closes : Nat
  stderrDiagnostic : Bool
  deriving DecidableEq

/-- `main()` (lines 9-21).  Control flow is linear with no handler: if
`connect` raises (line 10), or `get_compile_options` raises (line 14), or
the print loop raises (lines 17-18), the exception propagates unhandled,
Python writes a traceback to the error stream and the process exits with
status 1; in each of those cases line 21 (`conn.close()`) is never
executed, because the source has no try/finally or context manager.  Only
when every step succeeds is the connection closed (once) and the exit
status 0. -/
def main (b : EngineBehavior) : RunResult :=
  match b with
  | .connectFail => ⟨[], 1, 0, true⟩
  | .connectOk q =>
    match get_compile_options q with
    | none => ⟨[], 1, 0, true⟩
    | some rows =>
      let r := printLoop rows
      if r.2 then ⟨r.1, 0, 1, false⟩ else ⟨r.1, 1, 0, true⟩

/-- The `if __name__ == "__main__":` guard (lines 24-25): the process
entry point calls `main()` with no arguments; the argument vector of the
process is never read anywhere in the script. -/
def runProgram (argv : List String) (b : EngineBehavior) : RunResult :=
  main b

/-- Two successive invocations of the script against a fixed engine
build (the engine behaves identically both times). -/
def runTwice (b : EngineBehavior) : RunResult × RunResult :=
  (main b, main b)

/-- When every row has at least one field, the print loop completes and
prints exactly the first field of each row, in order. -/
lemma printLoop_of_forall_ne_nil : ∀ (rows : List Row), (∀ r ∈ rows, r ≠ []) →
    printLoop rows = (rows.map (fun r => r.headD ""), true)
  | [], _ => rfl
  | [] :: _, h => absurd rfl (h [] (List.mem_cons_self _ _))
  | (f :: fs) :: rest, h => by
    have ih := printLoop_of_forall_ne_nil rest (fun r hr => h r (List.mem_cons_of_mem _ hr))
    simp [printLoop, ih]

/-- The print loop depends only on the first field of each row. -/
lemma printLoop_congr_head : ∀ (r₁ r₂ : List Row),
    r₁.map List.head? = r₂.map List.head? → printLoop r₁ = printLoop r₂
  | [], [], _ => rfl
  | [], _ :: _, h => by simp at h
  | _ :: _, [], h => by simp at h
  | a :: t₁, b :: t₂, h => by
    simp only [List.map_cons, List.cons.injEq] at h
    have ih := printLoop_congr_head t₁ t₂ h.2
    match a, b, h.1 with
    | [], [], _ => simp [printLoop]
    | [], _ :: _, hab => simp [List.head?] at hab
    | _ :: _, [], hab => simp [List.head?] at hab
    | f :: _, g :: _, hab =>
      simp only [List.head?, Option.some.injEq] at hab
      subst hab
      simp [printLoop, ih]

/-- If the rows before the first empty row are all non-empty, the print
loop prints exactly their first fields and then raises. -/
lemma printLoop_append_empty_row : ∀ (pre rest : List Row), (∀ r ∈ pre, r ≠ []) →
    printLoop (pre ++ [] :: rest) = (pre.map (fun r => r.headD ""), false)
  | [], rest, _ => rfl
  | [] :: _, _, h => absurd rfl (h [] (List.mem_cons_self _ _))
  | (f :: fs) :: pre, rest, h => by
    have ih := printLoop_append_empty_row pre rest (fun r hr => h r (List.mem_cons_of_mem _ hr))
    simp [printLoop, ih]

/-- On the success path (connection and query succeed, every row
non-empty), `main` runs end to end. -/
lemma main_ok_of_forall_ne_nil (rows : List Row) (h : ∀ r ∈ rows, r ≠ []) :
    main (.connectOk (.ok rows)) =
      ⟨rows.map (fun r => r.headD ""), 0, 1, false⟩ := by
  simp [main, get_compile_options, printLoop_of_forall_ne_nil rows h]

/-- C1: the claim states the connection is released exactly once even on
the failure path where the query raises a QueryError-class condition.  On
that concrete path the source skips line 21 entirely (no try/finally), so
`conn.close()` is executed zero times, not once. -/
theorem C1_counterexample :
    ¬ (main (.connectOk .queryError)).closes = 1 := by decide

/-- C1 (amended): the connection is explicitly released exactly once on
invocations where the query succeeds and the print loop completes; on the
QueryError failure path, on connection failure, and on a print-loop
failure, the explicit `conn.close()` on line 21 is skipped and the
program performs no release. -/
theorem C1_release_amended (rows : List Row) :
    (main (.connectOk (.ok rows))).closes = (if (printLoop rows).2 then 1 else 0) ∧
    (main (.connectOk .queryError)).closes = 0 ∧
    (main .connectFail).closes = 0 := by
  refine ⟨?_, rfl, rfl⟩
  simp only [main, get_compile_options]
  split <;> rfl

/-- C2: for every row sequence returned by the engine (each row having at
least one field, per the engine's interface contract), the program writes
exactly one line per row to standard output, each line being exactly the
first field of its row, in the order the rows were returned, with no
header and no trailing summary. -/
theorem C2_one_line_per_row (rows : List Row) (h : ∀ r ∈ rows, r ≠ []) :
    (main (.connectOk (.ok rows))).stdout = rows.map (fun r => r.headD "") ∧
    (main (.connectOk (.ok rows))).stdout.length = rows.length := by
  rw [main_ok_of_forall_ne_nil rows h]
  exact ⟨rfl, List.length_map _ _⟩

/-- Witness for C2 at the spec's example build: options `THREADSAFE`
then `ENABLE_FTS5` print as exactly those two lines in order. -/
theorem C2_one_line_per_row_witness :
    (main (.connectOk (.ok [["THREADSAFE"], ["ENABLE_FTS5"]]))).stdout =
      ["THREADSAFE", "ENABLE_FTS5"] :=
  (C2_one_line_per_row [["THREADSAFE"], ["ENABLE_FTS5"]] (by decide)).1

/-- C3: rows are retrieved eagerly (a failing query yields no rows, so
nothing is ever printed on that path), and for every engine behaviour
whose rows satisfy the engine contract (at least one field per row), the
run is all-or-nothing: either it exits 0 having printed the full
identifier list, or it exits non-zero having printed nothing. -/
theorem C3_all_or_nothing (b : EngineBehavior)
    (h : ∀ rows, b = .connectOk (.ok rows) → ∀ r ∈ rows, r ≠ []) :
    (∀ q, get_compile_options q = none → (main (.connectOk q)).stdout = []) ∧
    (((main b).exitCode = 0 ∧ ∃ rows, b = .connectOk (.ok rows) ∧
        (main b).stdout = rows.map (fun r => r.headD "")) ∨
      ((main b).exitCode ≠ 0 ∧ (main b).stdout = [])) := by
  refine ⟨fun q hq => by simp [main, hq], ?_⟩
  match b with
  | .connectFail => exact Or.inr ⟨by decide, rfl⟩
  | .connectOk .queryError => exact Or.inr ⟨by decide, rfl⟩
  | .connectOk (.ok rows) =>
    have hr := h rows rfl
    rw [main_ok_of_forall_ne_nil rows hr]
    exact Or.inl ⟨rfl, rows, rfl, rfl⟩

/-- Witness for C3 at a concrete one-row engine response. -/
theorem C3_all_or_nothing_witness :
    (main (.connectOk (.ok [["THREADSAFE"]]))).exitCode = 0 ∧
      ∃ rows, (EngineBehavior.connectOk (.ok [["THREADSAFE"]])) = .connectOk (.ok rows) ∧
        (main (.connectOk (.ok [["THREADSAFE"]]))).stdout = rows.map (fun r => r.headD "") := by
  have := (C3_all_or_nothing (.connectOk (.ok [["THREADSAFE"]]))
    (by intro rows hrows; cases hrows; decide)).2
  rcases this with h | h
  · exact h
  · exact absurd (by decide : (main (.connectOk (.ok [["THREADSAFE"]]))).exitCode = 0) h.1

/-- C4: if connection acquisition fails, the process exits non-zero,
writes a diagnostic (the unhandled-exception traceback) to the error
stream, and writes nothing to standard output. -/
theorem C4_connect_failure :
    (main .connectFail).exitCode ≠ 0 ∧
    (main .connectFail).stderrDiagnostic = true ∧
    (main .connectFail).stdout = [] := by decide

/-- C5: when the engine build defines zero compile-time options, the
lister returns the empty sequence, the program prints nothing, and the
process exits with status 0 (and the connection is closed once). -/
theorem C5_zero_options :
    get_compile_options (.ok []) = some [] ∧
    (main (.connectOk (.ok []))).stdout = [] ∧
    (main (.connectOk (.ok []))).exitCode = 0 := by decide

/-- C6: only the first field of each row influences standard output: any
two row sequences that agree rowwise on the first field (hence have equal
length) produce identical standard output, whatever the other fields
hold. -/
theorem C6_first_field_only (rows₁ rows₂ : List Row)
    (h : rows₁.map List.head? = rows₂.map List.head?) :
    (main (.connectOk (.ok rows₁))).stdout = (main (.connectOk (.ok rows₂))).stdout := by
  have hp := printLoop_congr_head rows₁ rows₂ h
  simp only [main, get_compile_options, hp]

/-- Witness for C6: two rows sharing the first field but differing in a
trailing field print identically. -/
theorem C6_first_field_only_witness :
    (main (.connectOk (.ok [["OPT", "x"]]))).stdout =
      (main (.connectOk (.ok [["OPT", "y", "z"]]))).stdout :=
  C6_first_field_only [["OPT", "x"]] [["OPT", "y", "z"]] (by decide)

/-- C7: for a fixed engine build (identical engine behaviour on both
invocations), two successive runs produce the same observable result:
the lister is deterministic given the engine's response. -/
theorem C7_deterministic (b : EngineBehavior) :
    (runTwice b).1 = (runTwice b).2 := rfl

/-- C8: under the engine contract that every returned row has a first
field and that field is a non-empty string, every returned identifier is
non-empty and no printed line is empty. -/
theorem C8_nonempty_identifiers (rows : List Row)
    (h : ∀ r ∈ rows, ∃ f fs, r = f :: fs ∧ f ≠ "") :
    ∀ line ∈ (main (.connectOk (.ok rows))).stdout, line ≠ "" := by
  have hne : ∀ r ∈ rows, r ≠ [] := by
    intro r hr
    obtain ⟨f, fs, rfl, -⟩ := h r hr
    exact List.cons_ne_nil f fs
  rw [main_ok_of_forall_ne_nil rows hne]
  intro line hline
  simp only [List.mem_map] at hline
  obtain ⟨r, hr, rfl⟩ := hline
  obtain ⟨f, fs, rfl, hf⟩ := h r hr
  simpa using hf

/-- Witness for C8 at a concrete engine response: the empty line does
not occur in the output. -/
theorem C8_nonempty_identifiers_witness :
    ¬ "" ∈ (main (.connectOk (.ok [["THREADSAFE"], ["ENABLE_FTS5"]]))).stdout :=
  fun hmem =>
    C8_nonempty_identifiers [["THREADSAFE"], ["ENABLE_FTS5"]]
      (by
        intro r hr
        simp only [List.mem_cons, List.not_mem_nil, or_false] at hr
        rcases hr with rfl | rfl
        · exact ⟨"THREADSAFE", [], rfl, by decide⟩
        · exact ⟨"ENABLE_FTS5", [], rfl, by decide⟩)
      "" hmem rfl

/-- C9: the print loop indexes each row at position 0 without a guard:
if the result contains an empty row (all earlier rows being non-empty),
the program prints the first fields of the preceding rows, then raises an
indexing error, leaving partial output, a non-zero exit status, and a
diagnostic on the error stream. -/
theorem C9_empty_row_partial_output (pre rest : List Row)
    (h : ∀ r ∈ pre, r ≠ []) :
    (main (.connectOk (.ok (pre ++ [] :: rest)))).stdout = pre.map (fun r => r.headD "") ∧
    (main (.connectOk (.ok (pre ++ [] :: rest)))).exitCode ≠ 0 ∧
    (main (.connectOk (.ok (pre ++ [] :: rest)))).stderrDiagnostic = true := by
  have hp := printLoop_append_empty_row pre rest h
  simp [main, get_compile_options, hp]

/-- Witness for C9: with rows `[["A"], [], ["B"]]` the program prints
exactly `A` and fails. -/
theorem C9_empty_row_partial_output_witness :
    (main (.connectOk (.ok [["A"], [], ["B"]]))).stdout = ["A"] ∧
    (main (.connectOk (.ok [["A"], [], ["B"]]))).exitCode ≠ 0 ∧
    (main (.connectOk (.ok [["A"], [], ["B"]]))).stderrDiagnostic = true :=
  C9_empty_row_partial_output [["A"]] [["B"]] (by decide)

/-- C10: the program never reads its argument vector, so for any two
argument vectors and the same engine behaviour, the two runs have
identical observable results (standard output and exit status included). -/
theorem C10_argv_independent (a₁ a₂ : List String) (b : EngineBehavior) :
    runProgram a₁ b = runProgram a₂ b := rfl

end ListCompileOptions
